import Mathlib

/-!
Shallow embedding of the update-scheduling and news-store core of the
COVID dashboard (source files `update_handler.py`, `covid_data_handler.py`,
`covid_news_handling.py`, `config_handler.py`), together with proofs about
the claimed properties of that core.

Modelling conventions:
* Python dictionaries that preserve insertion order are modelled as
  association lists; assignment to an existing key updates in place,
  assignment to a fresh key appends.
* `request.args.get(...)` values are `Option String` (`none` = parameter
  absent); Python truthiness of such a value is `pythonTruthy`.
* Raised exceptions are modelled by an `err` field in each operation
  result; the `state` field is the global state at the moment the
  exception escaped (Python mutates module-level globals in place, so
  mutations made before a raise persist).
* `datetime` values are modelled at one-second granularity as integer
  seconds counted from the `strptime` epoch midnight (1900-01-01 00:00).
* Log records are modelled as (level, formatted message) pairs.
-/

namespace ECM

set_option linter.unusedSectionVars false

/-- Python truthiness of an optional string (`None` and `""` are falsy). -/
def pythonTruthy : Option String → Bool
  | none => false
  | some s => s ≠ ""

/-- Python `"%s" % x` rendering of an optional string (`None` prints as "None"). -/
def optStr : Option String → String
  | none => "None"
  | some s => s

/-- Python `sep.join(list)`. -/
def pyJoin (sep : String) : List String → String
  | [] => ""
  | [x] => x
  | x :: y :: xs => x ++ sep ++ pyJoin sep (y :: xs)

/-- Accumulator pass over the characters for `str.split()` with no
argument: split on whitespace runs, dropping empty words. -/
def splitWhiteAux : List Char → List Char → List (List Char)
  | cur, [] => if cur.isEmpty then [] else [cur.reverse]
  | cur, c :: cs =>
    if c.isWhitespace then
      if cur.isEmpty then splitWhiteAux [] cs
      else cur.reverse :: splitWhiteAux [] cs
    else splitWhiteAux (c :: cur) cs

/-- Python `str.split()` with no argument: split on whitespace runs, dropping empties. -/
def pySplit (s : String) : List String :=
  (splitWhiteAux [] s.data).map (fun l => String.mk l)

/-- Split on every occurrence of a single separator character, keeping
empty segments (the semantics of Python `str.split(sep)` and of
`str.split(":")` in particular). -/
def splitSepAux (sep : Char) : List Char → List Char → List (List Char)
  | cur, [] => [cur.reverse]
  | cur, c :: cs =>
    if c == sep then cur.reverse :: splitSepAux sep [] cs
    else splitSepAux sep (c :: cur) cs

/-- Python `str.lower()` (at ASCII granularity). -/
def lowerStr (s : String) : String :=
  String.mk (s.data.map Char.toLower)

/-- Test `listStarts hay needle`: `needle` is an initial segment of `hay`. -/
def listStarts : List Char → List Char → Bool
  | _, [] => true
  | [], _ :: _ => false
  | h :: hs, n :: ns => h == n && listStarts hs ns

/-- Test `listHas hay needle`: `needle` occurs contiguously inside `hay`. -/
def listHas : List Char → List Char → Bool
  | [], needle => needle.isEmpty
  | h :: hs, needle => listStarts (h :: hs) needle || listHas hs needle

/-- Python `needle in hay` on strings (substring containment). -/
def strHas (hay needle : String) : Bool :=
  listHas hay.data needle.data

/-- Log levels used by the program (`logging.info/warning/critical`). -/
inductive Level where
  | info
  | warning
  | critical
deriving DecidableEq

/-- One emitted log record: level and formatted message. -/
abbrev LogEntry := Level × String

section AssocList

variable {κ : Type} {ν : Type} [BEq κ] [LawfulBEq κ]

/-- Python `key in dict`. -/
def alMem (k : κ) (l : List (κ × ν)) : Bool :=
  l.any (fun p => p.1 == k)

/-- Python `dict[key]` lookup (first matching key; keys are unique in practice). -/
def alGet (k : κ) : List (κ × ν) → Option ν
  | [] => none
  | p :: ps => if p.1 == k then some p.2 else alGet k ps

/-- Python `dict[key] = value`: update in place if present, else append. -/
def alSet (k : κ) (v : ν) (l : List (κ × ν)) : List (κ × ν) :=
  if alMem k l then l.map (fun p => if p.1 == k then (k, v) else p)
  else l ++ [(k, v)]

/-- Python `dict.pop(key)`: drop the entry for `k`. -/
def alPop (k : κ) (l : List (κ × ν)) : List (κ × ν) :=
  l.filter (fun p => p.1 != k)

end AssocList

/-- A pending update entry (`{"time": ..., "repeats": ..., "update": ...}`):
the `update` field is the handle of its scheduled event, absent until a
scheduler entry is armed. -/
structure Job where
  time : String
  repeats : Option String
  update : Option Nat
deriving DecidableEq

/-- One entry of a `sched.scheduler` queue: handle, delay in seconds, and
the job-name argument the callback will receive. -/
structure SchedEntry where
  id : Nat
  delay : Int
  name : Option String
deriving DecidableEq

/-- A raw news article as consumed from the news API response.
`content := none` models a JSON `null` content; `url := none` models an
absent `url` key (as in the synthesized sentinel article), whose access
raises `KeyError`. -/
structure RawArticle where
  title : String
  content : Option String
  url : Option String
deriving DecidableEq

/-- A formatted article as stored in `news_articles` (the `Markup` wrapper
is equal to its underlying string, so it is modelled as `String`). -/
structure FormattedArticle where
  title : String
  content : String
deriving DecidableEq

/-- The validated configuration values consumed by the core
(`config_handler.read_config` after `validate_field`). -/
structure Config where
  news_API_key : String
  news_country_code : String
  news_search_terms : String
  news_update_interval_seconds : Int
  covid_update_interval_seconds : Int
  covid_nation : String
  covid_local : String
deriving DecidableEq

/-- The module-level mutable state of the program: the two job registries
(`covid_updates`, `news_updates`), the two scheduler queues (`cdh.s`,
`cnh.s`), the article store, the block list, the covid data cache, and a
counter supplying fresh scheduler-event handles. -/
structure SysState where
  covid_updates : List (Option String × Job)
  news_updates : List (Option String × Job)
  covid_queue : List SchedEntry
  news_queue : List SchedEntry
  news_articles : List FormattedArticle
  blocked_articles : List String
  covid_data : List (String × List String)
  nextId : Nat
deriving DecidableEq

/-- Result of running one operation: the state when it returned (or when
an exception escaped), the log records it emitted, and the escaped
exception, if any. -/
structure OpResult where
  state : SysState
  logs : List LogEntry
  err : Option String
deriving DecidableEq

/-- Sequencing of two operations on the global state: the second runs only
if the first did not raise. -/
def seqOp (r : OpResult) (f : SysState → OpResult) : OpResult :=
  match r.err with
  | some _ => r
  | none =>
    let r2 := f r.state
    ⟨r2.state, r.logs ++ r2.logs, r2.err⟩

/-- Model of `datetime.strptime(s, "%H:%M")`: parse a 1-2 digit hour below 24 and a
1-2 digit minute below 60, separated by a colon; anything else raises
`ValueError`. Only the time-of-day fields matter (the parsed date is the
epoch 1900-01-01). -/
def strptimeHM (s : String) : Except String (Nat × Nat) :=
  let parse2 : String → Option Nat := fun t =>
    if t.length == 0 || t.length > 2 || !t.data.all Char.isDigit then none
    else some (t.data.foldl (fun n c => n * 10 + (c.toNat - 48)) 0)
  match (splitSepAux ':' [] s.data).map (fun l => String.mk l) with
  | [hs, ms] =>
    match parse2 hs, parse2 ms with
    | some h, some m =>
      if h < 24 && m < 60 then .ok (h, m)
      else .error "ValueError: time data does not match format"
    | _, _ => .error "ValueError: time data does not match format"
  | _ => .error "ValueError: time data does not match format"

/-- The `seconds` component of a Python `timedelta` holding `t` total
seconds: `timedelta` normalizes to `(days, seconds, microseconds)` with
`0 <= seconds < 86400`, so `.seconds` is `t mod 86400` (Euclidean). -/
def tdSeconds (t : Int) : Int :=
  t % 86400

/-- Model of `(datetime.strptime(update_time, "%H:%M") - datetime.now()).seconds`:
the parsed time is `h*3600 + m*60` seconds after the epoch midnight, and
`now` is the current datetime in seconds from that same epoch. -/
def delaySeconds (h m : Nat) (now : Int) : Int :=
  tdSeconds (((h : Int) * 3600 + (m : Int) * 60) - now)

/-- Modelled from the spec (§4.2): the delay a creation is specified to
compute, namely "the nonnegative wall-clock difference between now and the
next occurrence of `targetTime` today", i.e. the seconds-of-day difference
between the target time and the time of day of now, wrapped into a day. -/
def specSecondsOfDayDelay (h m : Nat) (now : Int) : Int :=
  (((h : Int) * 3600 + (m : Int) * 60) - now % 86400) % 86400

/-- The sentinel article synthesized by `news_API_request` when no fetched
article matches the search terms; note it has no `url` key. -/
def sentinelArticle : RawArticle :=
  { title := "No relevant articles currently", content := some "", url := none }

/-- Model of `covid_news_handling.filter_articles`: keep the articles whose
lower-cased title contains at least one lower-cased search term. -/
def filter_articles (articles : List RawArticle) (search_terms : String) : List RawArticle :=
  articles.filter (fun article =>
    let title := lowerStr article.title
    (pySplit search_terms).any (fun term => strHas title (lowerStr term)))

/-- Model of `covid_news_handling.news_API_request`: raises `ValueError` when the
configured key is still the `"[API_KEY_HERE]"` placeholder; otherwise
filters the fetched response (`apiResponse`, the decoded `articles` field
of the HTTP reply) by the search terms and appends the sentinel article if
nothing matched. -/
def news_API_request (cfg : Config) (apiResponse : List RawArticle)
    (covid_terms : String) : List LogEntry × Except String (List RawArticle) :=
  let logs : List LogEntry := [(Level.info, "Requesting recent top headlines...")]
  if cfg.news_API_key == "[API_KEY_HERE]" then
    (logs ++ [(Level.critical, "The news API key has not been set in config.json")],
     .error "ValueError: The news API key has not been set in config.json")
  else
    let filtered := filter_articles apiResponse covid_terms
    let filtered := if filtered.length == 0 then filtered ++ [sentinelArticle] else filtered
    (logs, .ok filtered)

/-- Model of `covid_news_handling.format_article`: accesses `article["url"]`
(raising `KeyError` if the key is absent), shortens truthy content to its
first 20 words followed by the link, and uses the bare link otherwise. -/
def format_article (article : RawArticle) : Except String FormattedArticle :=
  match article.url with
  | none => .error "KeyError: \x27url\x27"
  | some u =>
    let url := "<a href=\x27" ++ u ++ "\x27>[Click Here]</a>"
    match article.content with
    | some c =>
      if c ≠ "" then
        let description := pyJoin " " ((pySplit c).take 20)
        .ok { title := article.title, content := description ++ "... " ++ url }
      else .ok { title := article.title, content := url }
    | none => .ok { title := article.title, content := url }

/-- The ingest loop of `update_news`: format each fetched article and
append it to the store unless an equal article is already stored or its
title is blocked. A `KeyError` from `format_article` escapes, keeping the
articles appended so far. Returns (store, logs, escaped exception). -/
def ingestArticles (blocked : List String) (arts : List FormattedArticle) :
    List RawArticle → List FormattedArticle × List LogEntry × Option String
  | [] => (arts, [], none)
  | a :: rest =>
    match format_article a with
    | .error e => (arts, [], some e)
    | .ok fa =>
      if !arts.contains fa && !blocked.contains fa.title then
        let r := ingestArticles blocked (arts ++ [fa]) rest
        (r.1, (Level.info, "Article \x27" ++ a.title ++ "\x27 added.") :: r.2.1, r.2.2)
      else ingestArticles blocked arts rest

/-- Model of `registry[update_name]["update"] = ev`: record the handle of the newly
armed scheduler event in the job entry stored under `update_name`. -/
def alSetHandle (update_name : Option String) (ev : Nat)
    (l : List (Option String × Job)) : List (Option String × Job) :=
  l.map (fun p => if p.1 == update_name then (p.1, { p.2 with update := some ev }) else p)

/-- Model of `covid_news_handling.schedule_news_updates`: synthesize a dummy
registry entry (with a warning) when the name is unknown, then arm one
scheduler event with the given delay and record its handle in the entry. -/
def schedule_news_updates (update_interval : Int) (update_name : Option String)
    (st : SysState) : SysState × List LogEntry :=
  let present := alMem update_name st.news_updates
  let st1 : SysState :=
    if present then st
    else { st with news_updates := alSet update_name ⟨"None", none, none⟩ st.news_updates }
  let logs : List LogEntry :=
    if present then [] else [(Level.warning, "Update not found, dummy update created.")]
  let ev := st1.nextId
  let st2 : SysState :=
    { st1 with news_queue := st1.news_queue ++ [⟨ev, update_interval, update_name⟩], nextId := ev + 1 }
  ({ st2 with news_updates := alSetHandle update_name ev st2.news_updates }, logs)

/-- Model of `covid_news_handling.update_news`: fetch and filter articles (a raised
`ValueError` escapes before any state change), ingest them into the store,
then either re-arm or retire the named scheduled update, warning when a
truthy name is unknown. -/
def update_news (update_name : Option String) (cfg : Config)
    (apiResponse : List RawArticle) (st : SysState) : OpResult :=
  let fetch := news_API_request cfg apiResponse cfg.news_search_terms
  match fetch.2 with
  | .error e => ⟨st, fetch.1, some e⟩
  | .ok api_articles =>
    let ing := ingestArticles st.blocked_articles st.news_articles api_articles
    let st1 := { st with news_articles := ing.1 }
    let logs := fetch.1 ++ ing.2.1
    match ing.2.2 with
    | some e => ⟨st1, logs, some e⟩
    | none =>
      match alGet update_name st1.news_updates with
      | some job =>
        let logs := logs ++ [(Level.info, "News update \x27" ++ optStr update_name ++ "\x27 completed.")]
        if pythonTruthy job.repeats then
          let r := schedule_news_updates cfg.news_update_interval_seconds update_name st1
          ⟨r.1, logs ++ r.2 ++ [(Level.info, "News update \x27" ++ optStr update_name ++ "\x27 scheduled to repeat.")], none⟩
        else
          ⟨{ st1 with news_updates := alPop update_name st1.news_updates },
           logs ++ [(Level.info, "News update \x27" ++ optStr update_name ++ "\x27 removed.")], none⟩
      | none =>
        if pythonTruthy update_name then
          ⟨st1, logs ++ [(Level.warning, "Update \x27\x7bupdate_name\x7d\x27 does not exist.")], none⟩
        else
          ⟨st1, logs ++ [(Level.info, "News articles updated.")], none⟩

/-- The removal loop of `covid_news_handling.block_article`, a faithful
model of CPython semantics for `for index, article in
enumerate(news_articles): if title == article["title"]:
news_articles.pop(index)`. The internal position of the list iterator advances
past each yielded element; popping the just-yielded element shifts the
following element into the popped slot, so the iterator passes over that
following element without examining it. -/
def blockSweep (title : String) : List FormattedArticle → List FormattedArticle
  | [] => []
  | x :: xs =>
    if x.title == title then
      match xs with
      | [] => []
      | y :: ys => y :: blockSweep title ys
    else x :: blockSweep title xs

/-- Model of `covid_news_handling.block_article`: append the title to the block
list and run the removal sweep over the stored articles. -/
def block_article (title : String) (st : SysState) : OpResult :=
  ⟨{ st with blocked_articles := st.blocked_articles ++ [title],
             news_articles := blockSweep title st.news_articles },
   [(Level.info, "Article \x27" ++ title ++ "\x27 blocked.")], none⟩

/-- Model of `covid_news_handling.create_news_update`: insert the entry, parse the
"HH:MM" target (a `ValueError` escapes with the entry already inserted),
compute the delay by datetime subtraction, and delegate to
`schedule_news_updates`. `now` is the current datetime in epoch seconds. -/
def create_news_update (update_time : String) (update_name : Option String)
    (repeats : Option String) (now : Int) (st : SysState) : OpResult :=
  let st1 : SysState :=
    { st with news_updates := alSet update_name ⟨update_time, repeats, none⟩ st.news_updates }
  match strptimeHM update_time with
  | .error e => ⟨st1, [], some e⟩
  | .ok hm =>
    let seconds := delaySeconds hm.1 hm.2 now
    let r := schedule_news_updates seconds update_name st1
    ⟨r.1, r.2 ++ [(Level.info,
       (if pythonTruthy repeats then "Repeating" else "Single") ++
       " news update \x27" ++ optStr update_name ++ "\x27 created for " ++ update_time ++ ".")],
     none⟩

/-- Model of `covid_data_handler.covid_API_request` as it affects program state:
store the freshly fetched csv rows (`fetched`, the external API reply)
under the location key. -/
def covid_API_request (location : String) (fetched : List String)
    (st : SysState) : SysState × List LogEntry :=
  ({ st with covid_data := alSet location fetched st.covid_data },
   [(Level.info, "Requesting COVID data for " ++ location ++ "..."),
    (Level.info, "COVID data for " ++ location ++ " updated.")])

/-- Model of `covid_data_handler.schedule_covid_updates`: synthesize a dummy
registry entry (with a warning) when the name is unknown, then arm one
scheduler event with the given delay and record its handle in the entry. -/
def schedule_covid_updates (update_interval : Int) (update_name : Option String)
    (st : SysState) : SysState × List LogEntry :=
  let present := alMem update_name st.covid_updates
  let st1 : SysState :=
    if present then st
    else { st with covid_updates := alSet update_name ⟨"None", none, none⟩ st.covid_updates }
  let logs : List LogEntry :=
    if present then [] else [(Level.warning, "Update not found, dummy update created.")]
  let ev := st1.nextId
  let st2 : SysState :=
    { st1 with covid_queue := st1.covid_queue ++ [⟨ev, update_interval, update_name⟩], nextId := ev + 1 }
  ({ st2 with covid_updates := alSetHandle update_name ev st2.covid_updates }, logs)

/-- Model of `covid_data_handler.run_covid_update`: refresh both covid datasets,
then consult `covid_updates[update_name]["repeats"]` — an unknown name
raises `KeyError` here — and either re-arm the update with the configured
interval or retire it. `fetchLocal`/`fetchNation` are the external API
replies. -/
def run_covid_update (update_name : Option String) (cfg : Config)
    (fetchLocal fetchNation : List String) (st : SysState) : OpResult :=
  let r1 := covid_API_request cfg.covid_local fetchLocal st
  let r2 := covid_API_request cfg.covid_nation fetchNation r1.1
  let st1 := r2.1
  let logs := r1.2 ++ r2.2 ++ [(Level.info, "COVID update \x27" ++ optStr update_name ++ "\x27 completed.")]
  match alGet update_name st1.covid_updates with
  | none => ⟨st1, logs, some "KeyError"⟩
  | some job =>
    if pythonTruthy job.repeats then
      let r := schedule_covid_updates cfg.covid_update_interval_seconds update_name st1
      ⟨r.1, logs ++ r.2 ++ [(Level.info, "COVID update \x27" ++ optStr update_name ++ "\x27 scheduled to repeat.")], none⟩
    else
      ⟨{ st1 with covid_updates := alPop update_name st1.covid_updates },
       logs ++ [(Level.info, "COVID update \x27" ++ optStr update_name ++ "\x27 removed.")], none⟩

/-- Model of `covid_data_handler.create_covid_update`: insert the entry, parse the
"HH:MM" target (a `ValueError` escapes with the entry already inserted),
compute the delay by datetime subtraction, and delegate to
`schedule_covid_updates`. `now` is the current datetime in epoch seconds. -/
def create_covid_update (update_time : String) (update_name : Option String)
    (repeats : Option String) (now : Int) (st : SysState) : OpResult :=
  let st1 : SysState :=
    { st with covid_updates := alSet update_name ⟨update_time, repeats, none⟩ st.covid_updates }
  match strptimeHM update_time with
  | .error e => ⟨st1, [], some e⟩
  | .ok hm =>
    let seconds := delaySeconds hm.1 hm.2 now
    let r := schedule_covid_updates seconds update_name st1
    ⟨r.1, r.2 ++ [(Level.info,
       (if pythonTruthy repeats then "Repeating" else "Single") ++
       " COVID update \x27" ++ optStr update_name ++ "\x27 created for " ++ update_time ++ ".")],
     none⟩

/-- Model of `update_handler.format_update`: `"<time>, Updates <joined>, <clause>"`
built exactly as the source does, via `["Covid"*covid, "News"*news]`,
`filter(None, ...)`, `" & ".join(...)` and `", ".join(...)`. -/
def format_update (update : Job) (covid news : Bool) : String :=
  let data := [update.time]
  let updated_data := [if covid then "Covid" else "", if news then "News" else ""]
  let updated_data := updated_data.filter (fun t => t ≠ "")
  let data := data ++ ["Updates " ++ pyJoin " & " updated_data]
  let data := data ++ [if pythonTruthy update.repeats then "Repeats" else "Doesn\x27t Repeat"]
  pyJoin ", " data

/-- The URL query parameters consulted by `update_handler.create_update`
(each `request.args.get(...)`, absent = `none`). -/
structure ReqArgs where
  name : Option String
  update_covid : Option String
  update_news : Option String
  repeats : Option String
deriving DecidableEq

/-- Model of `update_handler.create_update`: if the name is a key of neither
registry (the merged-dict membership test), create a covid and/or news
update according to the truthy flags (warning when neither is requested);
otherwise log a single warning and change nothing. -/
def create_update (sched_time : String) (args : ReqArgs) (now : Int)
    (st : SysState) : OpResult :=
  if !(alMem args.name st.covid_updates || alMem args.name st.news_updates) then
    let r1 : OpResult :=
      if pythonTruthy args.update_covid then
        create_covid_update sched_time args.name args.repeats now st
      else ⟨st, [], none⟩
    let r2 := seqOp r1 (fun s =>
      if pythonTruthy args.update_news then
        create_news_update sched_time args.name args.repeats now s
      else ⟨s, [], none⟩)
    seqOp r2 (fun s =>
      if !pythonTruthy args.update_covid && !pythonTruthy args.update_news then
        ⟨s, [(Level.warning, "Empty update created, request ignored.")], none⟩
      else ⟨s, [], none⟩)
  else ⟨st, [(Level.warning, "Update name already exists.")], none⟩

/-- Model of `sched.scheduler.cancel`: remove the event with the given handle from
the queue; raises `ValueError` when it is not queued (already fired or
already cancelled). -/
def cancelEvent (id : Nat) (q : List SchedEntry) : Except String (List SchedEntry) :=
  if q.any (fun e => e.id == id) then .ok (q.filter (fun e => e.id != id))
  else .error "ValueError: event not in queue"

/-- The covid half of `update_handler.remove_update`: if the name is a
covid-registry key, cancel its scheduled event and drop the entry. -/
def removeCovidPart (name : String) (st : SysState) : OpResult :=
  match alGet (some name) st.covid_updates with
  | none => ⟨st, [], none⟩
  | some job =>
    match job.update with
    | none => ⟨st, [], some "KeyError: \x27update\x27"⟩
    | some ev =>
      match cancelEvent ev st.covid_queue with
      | .error e => ⟨st, [], some e⟩
      | .ok q =>
        ⟨{ st with covid_queue := q, covid_updates := alPop (some name) st.covid_updates },
         [(Level.info, "COVID update \x27" ++ name ++ "\x27 removed.")], none⟩

/-- The news half of `update_handler.remove_update`. -/
def removeNewsPart (name : String) (st : SysState) : OpResult :=
  match alGet (some name) st.news_updates with
  | none => ⟨st, [], none⟩
  | some job =>
    match job.update with
    | none => ⟨st, [], some "KeyError: \x27update\x27"⟩
    | some ev =>
      match cancelEvent ev st.news_queue with
      | .error e => ⟨st, [], some e⟩
      | .ok q =>
        ⟨{ st with news_queue := q, news_updates := alPop (some name) st.news_updates },
         [(Level.info, "News update \x27" ++ name ++ "\x27 removed.")], none⟩

/-- Model of `update_handler.remove_update`: for each domain in turn, if the name
is registered, cancel its scheduled event and drop the registry entry
(an exception in the covid half skips the news half). -/
def remove_update (name : String) (st : SysState) : OpResult :=
  seqOp (removeCovidPart name st) (removeNewsPart name)

/-- The module-load state of the process: empty registries, queues, store,
block list and data cache. -/
def initState : SysState :=
  { covid_updates := [], news_updates := [], covid_queue := [], news_queue := [],
    news_articles := [], blocked_articles := [], covid_data := [], nextId := 0 }

/-- One externally triggered operation of the system, as dispatched by the
dashboard route: creating an update, removing an update, a scheduled covid
or news update firing, or blocking an article. With `allowDual := false`,
creations requesting both domains at once are excluded. -/
inductive Step (allowDual : Bool) : SysState → SysState → Prop where
  | create (t : String) (args : ReqArgs) (now : Int) (s : SysState)
      (h : (allowDual || !(pythonTruthy args.update_covid && pythonTruthy args.update_news)) = true) :
      Step allowDual s (create_update t args now s).state
  | remove (name : String) (s : SysState) :
      Step allowDual s (remove_update name s).state
  | fireCovid (n : Option String) (cfg : Config) (fL fN : List String) (s : SysState) :
      Step allowDual s (run_covid_update n cfg fL fN s).state
  | fireNews (n : Option String) (cfg : Config) (raw : List RawArticle) (s : SysState) :
      Step allowDual s (update_news n cfg raw s).state
  | blockTitle (title : String) (s : SysState) :
      Step allowDual s (block_article title s).state

/-- The states reachable from module load by any sequence of operations. -/
inductive Reachable (allowDual : Bool) : SysState → Prop where
  | init : Reachable allowDual initState
  | step {s s' : SysState} : Reachable allowDual s → Step allowDual s s' → Reachable allowDual s'

/-- A configuration with a set API key, used at concrete instantiations. -/
def cfgGood : Config :=
  { news_API_key := "key", news_country_code := "gb", news_search_terms := "dup",
    news_update_interval_seconds := 100, covid_update_interval_seconds := 200,
    covid_nation := "England", covid_local := "Exeter" }

/-- A configuration whose API key is still the placeholder. -/
def cfgNoKey : Config :=
  { cfgGood with news_API_key := "[API_KEY_HERE]" }

/-- Two distinct fetched articles sharing one title. -/
def rawDup1 : RawArticle := { title := "dup", content := some "c1 words", url := some "u1" }

/-- See `rawDup1`. -/
def rawDup2 : RawArticle := { title := "dup", content := some "c2", url := some "u2" }

/-- A repeating registered job holding a scheduled-event handle. -/
def jobRep : Job := { time := "10:00", repeats := some "repeat", update := some 0 }

/-- A state carrying the same name in both registries (as one dual-domain
`create_update` produces). -/
def stBoth : SysState :=
  { initState with covid_updates := [(some "y", jobRep)],
                   news_updates := [(some "y", jobRep)], nextId := 5 }

/-- A state with one registered covid update named "x". -/
def stWithX : SysState :=
  { initState with covid_updates := [(some "x", ⟨"10:00", none, some 0⟩)],
                   covid_queue := [⟨0, 60, some "x"⟩], nextId := 1 }

/-- The store state produced by ingesting the two same-titled articles. -/
def stDup : SysState := (update_news none cfgGood [rawDup1, rawDup2] initState).state

/-- No job name is a key of both registries at once. -/
def RegDisjoint (s : SysState) : Prop :=
  ∀ k, ¬(alMem k s.covid_updates = true ∧ alMem k s.news_updates = true)

/-- The invariant that `title` is blocked and no stored article carries it. -/
def TitleBlockedInv (title : String) (s : SysState) : Prop :=
  title ∈ s.blocked_articles ∧ ∀ a ∈ s.news_articles, a.title ≠ title

section AssocLemmas

variable {κ : Type} {ν : Type} [BEq κ] [LawfulBEq κ]

lemma al_mem_append (k : κ) (l₁ l₂ : List (κ × ν)) :
    alMem k (l₁ ++ l₂) = (alMem k l₁ || alMem k l₂) := by
  simp [alMem, List.any_append]

lemma al_set_map_keys (k k' : κ) (v : ν) (l : List (κ × ν)) :
    ((l.map (fun p => if p.1 == k' then (k', v) else p)).any (fun p => p.1 == k))
      = l.any (fun p => p.1 == k) := by
  induction l with
  | nil => simp
  | cons p ps ih =>
    simp only [List.map_cons, List.any_cons, ih]
    by_cases hp : p.1 = k'
    · simp [hp]
    · simp [hp]

lemma al_mem_set (k k' : κ) (v : ν) (l : List (κ × ν)) :
    alMem k (alSet k' v l) = (alMem k l || k == k') := by
  unfold alSet
  cases h : alMem k' l with
  | true =>
    simp only [if_true]
    show ((l.map (fun p => if p.1 == k' then (k', v) else p)).any (fun p => p.1 == k))
      = (alMem k l || k == k')
    rw [al_set_map_keys]
    by_cases hk : k = k'
    · subst hk
      unfold alMem at h
      simp [alMem, h]
    · have hb : (k == k') = false := by simpa using hk
      simp [alMem, hb]
  | false =>
    simp only [Bool.false_eq_true, if_false]
    rw [al_mem_append]
    have h2 : alMem k [(k', v)] = (k' == k) := by simp [alMem]
    rw [h2]
    by_cases hk : k = k'
    · subst hk
      simp
    · have hb : (k == k') = false := by simpa using hk
      have hb' : (k' == k) = false := by simpa using fun e => hk e.symm
      rw [hb, hb']

lemma al_mem_pop (k k' : κ) (l : List (κ × ν)) :
    alMem k (alPop k' l) = (alMem k l && !(k == k')) := by
  induction l with
  | nil => simp [alMem, alPop]
  | cons p ps ih =>
    simp only [alPop, List.filter_cons] at *
    by_cases hp : p.1 = k'
    · have h1 : (p.1 != k') = false := by simp [hp]
      rw [h1]
      simp only [Bool.false_eq_true, if_false, ih]
      by_cases hk : k = k'
      · simp [alMem, hk, hp]
      · have h2 : (p.1 == k) = false := by
          subst hp
          simpa using fun e => hk e.symm
        simp [alMem, h2, hk]
    · have h1 : (p.1 != k') = true := by simpa using hp
      rw [h1]
      simp only [if_true]
      simp only [alMem, List.any_cons] at ih ⊢
      rw [ih]
      by_cases hpk : p.1 = k
      · have hno : ¬ k = k' := fun e => hp (hpk.trans e)
        have hb : (!(k == k')) = true := by simpa using hno
        simp [hpk, hb]
      · have hb : (p.1 == k) = false := by simpa using hpk
        simp [hb]

lemma al_get_mem {k : κ} {v : ν} {l : List (κ × ν)} (h : alGet k l = some v) :
    alMem k l = true := by
  induction l with
  | nil => simp [alGet] at h
  | cons p ps ih =>
    simp only [alGet] at h
    by_cases hp : p.1 == k
    · simp [alMem, hp]
    · rw [if_neg (by simp_all)] at h
      have := ih h
      simp only [alMem, List.any_cons] at this ⊢
      simp [this]

lemma al_mem_get {k : κ} {l : List (κ × ν)} (h : alMem k l = true) :
    ∃ v, alGet k l = some v := by
  induction l with
  | nil => simp [alMem] at h
  | cons p ps ih =>
    by_cases hp : p.1 == k
    · exact ⟨p.2, by simp [alGet, hp]⟩
    · simp only [alMem, List.any_cons, Bool.or_eq_true] at h
      rcases h with h | h
      · exact absurd h hp
      · obtain ⟨v, hv⟩ := ih h
        exact ⟨v, by simp [alGet, hp, hv]⟩

end AssocLemmas

lemma al_mem_setHandle (k n : Option String) (ev : Nat) (l : List (Option String × Job)) :
    alMem k (alSetHandle n ev l) = alMem k l := by
  induction l with
  | nil => rfl
  | cons p ps ih =>
    simp only [alSetHandle, alMem, List.map_cons, List.any_cons] at ih ⊢
    by_cases hp : p.1 = n
    · simp only [hp, beq_self_eq_true, if_true]
      rw [ih]
    · have hb : (p.1 == n) = false := by simpa using hp
      simp only [hb, Bool.false_eq_true, if_false]
      rw [ih]


lemma al_mem_set_iff {κ ν : Type} [BEq κ] [LawfulBEq κ] (k k' : κ) (v : ν) (l : List (κ × ν)) :
    alMem k (alSet k' v l) = true ↔ (alMem k l = true ∨ k = k') := by
  unfold alSet
  by_cases h : alMem k' l = true
  · rw [if_pos h]
    show ((l.map (fun p => if p.1 == k' then (k', v) else p)).any (fun p => p.1 == k)) = true ↔ _
    rw [al_set_map_keys]
    constructor
    · exact fun hm => Or.inl hm
    · rintro (hm | rfl)
      · exact hm
      · exact h
  · rw [if_neg h]
    rw [al_mem_append]
    have h2 : alMem k [(k', v)] = (k' == k) := by
      simp only [alMem, List.any_cons, List.any_nil, Bool.or_false]
    rw [h2]
    constructor
    · intro hm
      rcases Bool.or_eq_true_iff.mp hm with hm | hm
      · exact Or.inl hm
      · exact Or.inr (eq_of_beq hm).symm
    · rintro (hm | rfl)
      · exact Bool.or_eq_true_iff.mpr (Or.inl hm)
      · exact Bool.or_eq_true_iff.mpr (Or.inr (by simp))

lemma al_mem_pop_iff {κ ν : Type} [BEq κ] [LawfulBEq κ] (k k' : κ) (l : List (κ × ν)) :
    alMem k (alPop k' l) = true ↔ (alMem k l = true ∧ k ≠ k') := by
  simp only [alMem, alPop, List.any_eq_true, List.mem_filter, bne_iff_ne, ne_eq, beq_iff_eq]
  constructor
  · rintro ⟨p, ⟨hp, hne⟩, rfl⟩
    exact ⟨⟨p, hp, rfl⟩, hne⟩
  · rintro ⟨⟨p, hp, rfl⟩, hne⟩
    exact ⟨p, ⟨hp, hne⟩, rfl⟩

lemma sched_covid_eq (i : Int) (n : Option String) (st : SysState) :
    schedule_covid_updates i n st =
      (if alMem n st.covid_updates then
        ({ st with covid_updates := alSetHandle n st.nextId st.covid_updates,
                   covid_queue := st.covid_queue ++ [⟨st.nextId, i, n⟩],
                   nextId := st.nextId + 1 }, [])
       else
        ({ st with covid_updates := alSetHandle n st.nextId (alSet n ⟨"None", none, none⟩ st.covid_updates),
                   covid_queue := st.covid_queue ++ [⟨st.nextId, i, n⟩],
                   nextId := st.nextId + 1 },
         [(Level.warning, "Update not found, dummy update created.")])) := by
  cases h : alMem n st.covid_updates with
  | true => simp only [schedule_covid_updates, h, if_true]
  | false => simp only [schedule_covid_updates, h, Bool.false_eq_true, if_false]

lemma sched_news_eq (i : Int) (n : Option String) (st : SysState) :
    schedule_news_updates i n st =
      (if alMem n st.news_updates then
        ({ st with news_updates := alSetHandle n st.nextId st.news_updates,
                   news_queue := st.news_queue ++ [⟨st.nextId, i, n⟩],
                   nextId := st.nextId + 1 }, [])
       else
        ({ st with news_updates := alSetHandle n st.nextId (alSet n ⟨"None", none, none⟩ st.news_updates),
                   news_queue := st.news_queue ++ [⟨st.nextId, i, n⟩],
                   nextId := st.nextId + 1 },
         [(Level.warning, "Update not found, dummy update created.")])) := by
  cases h : alMem n st.news_updates with
  | true => simp only [schedule_news_updates, h, if_true]
  | false => simp only [schedule_news_updates, h, Bool.false_eq_true, if_false]

lemma sched_covid_mem_iff (i : Int) (n k : Option String) (st : SysState) :
    alMem k (schedule_covid_updates i n st).1.covid_updates = true
      ↔ (alMem k st.covid_updates = true ∨ k = n) := by
  rw [sched_covid_eq]
  cases h : alMem n st.covid_updates with
  | true =>
    rw [if_pos rfl]
    show alMem k (alSetHandle n st.nextId st.covid_updates) = true ↔ _
    rw [al_mem_setHandle]
    constructor
    · exact fun hm => Or.inl hm
    · rintro (hm | rfl)
      · exact hm
      · exact h
  | false =>
    rw [if_neg (by simp)]
    show alMem k (alSetHandle n st.nextId (alSet n ⟨"None", none, none⟩ st.covid_updates)) = true ↔ _
    rw [al_mem_setHandle, al_mem_set_iff]

lemma sched_news_mem_iff (i : Int) (n k : Option String) (st : SysState) :
    alMem k (schedule_news_updates i n st).1.news_updates = true
      ↔ (alMem k st.news_updates = true ∨ k = n) := by
  rw [sched_news_eq]
  cases h : alMem n st.news_updates with
  | true =>
    rw [if_pos rfl]
    show alMem k (alSetHandle n st.nextId st.news_updates) = true ↔ _
    rw [al_mem_setHandle]
    constructor
    · exact fun hm => Or.inl hm
    · rintro (hm | rfl)
      · exact hm
      · exact h
  | false =>
    rw [if_neg (by simp)]
    show alMem k (alSetHandle n st.nextId (alSet n ⟨"None", none, none⟩ st.news_updates)) = true ↔ _
    rw [al_mem_setHandle, al_mem_set_iff]

lemma sched_covid_other (i : Int) (n : Option String) (st : SysState) :
    (schedule_covid_updates i n st).1.news_updates = st.news_updates
    ∧ (schedule_covid_updates i n st).1.news_queue = st.news_queue
    ∧ (schedule_covid_updates i n st).1.news_articles = st.news_articles
    ∧ (schedule_covid_updates i n st).1.blocked_articles = st.blocked_articles := by
  rw [sched_covid_eq]
  split <;> exact ⟨rfl, rfl, rfl, rfl⟩

lemma sched_news_other (i : Int) (n : Option String) (st : SysState) :
    (schedule_news_updates i n st).1.covid_updates = st.covid_updates
    ∧ (schedule_news_updates i n st).1.covid_queue = st.covid_queue
    ∧ (schedule_news_updates i n st).1.covid_data = st.covid_data
    ∧ (schedule_news_updates i n st).1.news_articles = st.news_articles
    ∧ (schedule_news_updates i n st).1.blocked_articles = st.blocked_articles := by
  rw [sched_news_eq]
  split <;> exact ⟨rfl, rfl, rfl, rfl, rfl⟩


lemma create_covid_other (t : String) (n r : Option String) (now : Int) (st : SysState) :
    (create_covid_update t n r now st).state.news_updates = st.news_updates
    ∧ (create_covid_update t n r now st).state.news_queue = st.news_queue
    ∧ (create_covid_update t n r now st).state.news_articles = st.news_articles
    ∧ (create_covid_update t n r now st).state.blocked_articles = st.blocked_articles := by
  unfold create_covid_update
  cases hp : strptimeHM t with
  | error e => exact ⟨rfl, rfl, rfl, rfl⟩
  | ok hm =>
    simp only []
    exact sched_covid_other _ n _

lemma create_news_other (t : String) (n r : Option String) (now : Int) (st : SysState) :
    (create_news_update t n r now st).state.covid_updates = st.covid_updates
    ∧ (create_news_update t n r now st).state.covid_queue = st.covid_queue
    ∧ (create_news_update t n r now st).state.news_articles = st.news_articles
    ∧ (create_news_update t n r now st).state.blocked_articles = st.blocked_articles := by
  unfold create_news_update
  cases hp : strptimeHM t with
  | error e => exact ⟨rfl, rfl, rfl, rfl⟩
  | ok hm =>
    simp only []
    have h := sched_news_other (delaySeconds hm.1 hm.2 now) n
      { st with news_updates := alSet n ⟨t, r, none⟩ st.news_updates }
    exact ⟨h.1, h.2.1, h.2.2.2.1, h.2.2.2.2⟩

lemma create_covid_mem_iff (t : String) (n r k : Option String) (now : Int) (st : SysState) :
    alMem k (create_covid_update t n r now st).state.covid_updates = true
      ↔ (alMem k st.covid_updates = true ∨ k = n) := by
  unfold create_covid_update
  cases hp : strptimeHM t with
  | error e =>
    show alMem k (alSet n ⟨t, r, none⟩ st.covid_updates) = true ↔ _
    exact al_mem_set_iff k n _ _
  | ok hm =>
    simp only []
    rw [sched_covid_mem_iff]
    show alMem k (alSet n ⟨t, r, none⟩ st.covid_updates) = true ∨ k = n ↔ _
    rw [al_mem_set_iff]
    tauto

lemma create_news_mem_iff (t : String) (n r k : Option String) (now : Int) (st : SysState) :
    alMem k (create_news_update t n r now st).state.news_updates = true
      ↔ (alMem k st.news_updates = true ∨ k = n) := by
  unfold create_news_update
  cases hp : strptimeHM t with
  | error e =>
    show alMem k (alSet n ⟨t, r, none⟩ st.news_updates) = true ↔ _
    exact al_mem_set_iff k n _ _
  | ok hm =>
    simp only []
    rw [sched_news_mem_iff]
    show alMem k (alSet n ⟨t, r, none⟩ st.news_updates) = true ∨ k = n ↔ _
    rw [al_mem_set_iff]
    tauto


lemma run_covid_other (n : Option String) (cfg : Config) (fL fN : List String) (st : SysState) :
    (run_covid_update n cfg fL fN st).state.news_updates = st.news_updates
    ∧ (run_covid_update n cfg fL fN st).state.news_queue = st.news_queue
    ∧ (run_covid_update n cfg fL fN st).state.news_articles = st.news_articles
    ∧ (run_covid_update n cfg fL fN st).state.blocked_articles = st.blocked_articles := by
  unfold run_covid_update covid_API_request
  simp only []
  cases hget : alGet n st.covid_updates with
  | none => refine ⟨?_, ?_, ?_, ?_⟩ <;> trivial
  | some job =>
    simp only []
    by_cases hr : pythonTruthy job.repeats
    · simp only [hr, if_true]
      exact sched_covid_other _ n _
    · simp only [hr, Bool.false_eq_true, if_false]
      refine ⟨?_, ?_, ?_, ?_⟩ <;> trivial

lemma run_covid_mem_imp (n k : Option String) (cfg : Config) (fL fN : List String) (st : SysState)
    (h : alMem k (run_covid_update n cfg fL fN st).state.covid_updates = true) :
    alMem k st.covid_updates = true := by
  unfold run_covid_update covid_API_request at h
  simp only [] at h
  cases hget : alGet n st.covid_updates with
  | none =>
    rw [hget] at h
    exact h
  | some job =>
    rw [hget] at h
    simp only [] at h
    by_cases hr : pythonTruthy job.repeats
    · rw [if_pos hr] at h
      rcases (sched_covid_mem_iff _ n k _).mp h with hm | rfl
      · exact hm
      · exact al_get_mem hget
    · rw [if_neg hr] at h
      have h2 : alMem k (alPop n st.covid_updates) = true := h
      exact ((al_mem_pop_iff k n _).mp h2).1


lemma ingest_mem_imp (blocked : List String) :
    ∀ (raws : List RawArticle) (arts : List FormattedArticle) (a : FormattedArticle),
      a ∈ (ingestArticles blocked arts raws).1 →
      a ∈ arts ∨ blocked.contains a.title = false := by
  intro raws
  induction raws with
  | nil =>
    intro arts a h
    exact Or.inl h
  | cons r rest ih =>
    intro arts a h
    rw [ingestArticles] at h
    cases hf : format_article r with
    | error e =>
      rw [hf] at h
      exact Or.inl h
    | ok fa =>
      rw [hf] at h
      simp only [] at h
      by_cases hc : (!arts.contains fa && !blocked.contains fa.title) = true
      · rw [if_pos hc] at h
        rcases ih (arts ++ [fa]) a h with hm | hb
        · rcases List.mem_append.mp hm with hm | hm
          · exact Or.inl hm
          · have : a = fa := by simpa using hm
            subst this
            exact Or.inr (by
              rcases Bool.and_eq_true_iff.mp hc with ⟨_, h2⟩
              simpa using h2)
        · exact Or.inr hb
      · rw [if_neg hc] at h
        exact ih arts a h

lemma ingest_nodup (blocked : List String) :
    ∀ (raws : List RawArticle) (arts : List FormattedArticle),
      arts.Nodup → (ingestArticles blocked arts raws).1.Nodup := by
  intro raws
  induction raws with
  | nil => intro arts h; exact h
  | cons r rest ih =>
    intro arts h
    rw [ingestArticles]
    cases hf : format_article r with
    | error e => exact h
    | ok fa =>
      simp only []
      by_cases hc : (!arts.contains fa && !blocked.contains fa.title) = true
      · rw [if_pos hc]
        refine ih (arts ++ [fa]) ?_
        rcases Bool.and_eq_true_iff.mp hc with ⟨h1, _⟩
        have hnot : fa ∉ arts := by simpa using h1
        simp [List.nodup_append, h, hnot]
      · rw [if_neg hc]
        exact ih arts h

lemma update_news_other (n : Option String) (cfg : Config) (raw : List RawArticle) (st : SysState) :
    (update_news n cfg raw st).state.covid_updates = st.covid_updates
    ∧ (update_news n cfg raw st).state.covid_queue = st.covid_queue
    ∧ (update_news n cfg raw st).state.covid_data = st.covid_data
    ∧ (update_news n cfg raw st).state.blocked_articles = st.blocked_articles := by
  unfold update_news
  simp only []
  cases hf : (news_API_request cfg raw cfg.news_search_terms).2 with
  | error e => refine ⟨?_, ?_, ?_, ?_⟩ <;> trivial
  | ok arts =>
    simp only []
    cases hi : (ingestArticles st.blocked_articles st.news_articles arts).2.2 with
    | some e => refine ⟨?_, ?_, ?_, ?_⟩ <;> trivial
    | none =>
      simp only []
      cases hg : alGet n st.news_updates with
      | some job =>
        simp only []
        by_cases hr : pythonTruthy job.repeats
        · rw [if_pos hr]
          have h := sched_news_other cfg.news_update_interval_seconds n
            { st with news_articles := (ingestArticles st.blocked_articles st.news_articles arts).1 }
          exact ⟨h.1, h.2.1, h.2.2.1, h.2.2.2.2⟩
        · rw [if_neg hr]
          refine ⟨?_, ?_, ?_, ?_⟩ <;> trivial
      | none =>
        by_cases hn : pythonTruthy n = true
        · rw [if_pos hn]
          refine ⟨?_, ?_, ?_, ?_⟩ <;> trivial
        · rw [if_neg hn]
          refine ⟨?_, ?_, ?_, ?_⟩ <;> trivial


lemma update_news_mem_imp (n k : Option String) (cfg : Config) (raw : List RawArticle)
    (st : SysState) (h : alMem k (update_news n cfg raw st).state.news_updates = true) :
    alMem k st.news_updates = true := by
  unfold update_news at h
  simp only [] at h
  cases hf : (news_API_request cfg raw cfg.news_search_terms).2 with
  | error e =>
    rw [hf] at h
    exact h
  | ok arts =>
    rw [hf] at h
    simp only [] at h
    cases hi : (ingestArticles st.blocked_articles st.news_articles arts).2.2 with
    | some e =>
      rw [hi] at h
      exact h
    | none =>
      rw [hi] at h
      simp only [] at h
      cases hg : alGet n st.news_updates with
      | some job =>
        rw [hg] at h
        simp only [] at h
        by_cases hr : pythonTruthy job.repeats
        · rw [if_pos hr] at h
          rcases (sched_news_mem_iff _ n k _).mp h with hm | rfl
          · exact hm
          · exact al_get_mem hg
        · rw [if_neg hr] at h
          have h2 : alMem k (alPop n st.news_updates) = true := h
          exact ((al_mem_pop_iff k n _).mp h2).1
      | none =>
        rw [hg] at h
        by_cases hn : pythonTruthy n = true
        · rw [if_pos hn] at h
          exact h
        · rw [if_neg hn] at h
          exact h

lemma update_news_articles_imp (n : Option String) (cfg : Config) (raw : List RawArticle)
    (st : SysState) (a : FormattedArticle)
    (h : a ∈ (update_news n cfg raw st).state.news_articles) :
    a ∈ st.news_articles ∨ st.blocked_articles.contains a.title = false := by
  unfold update_news at h
  simp only [] at h
  cases hf : (news_API_request cfg raw cfg.news_search_terms).2 with
  | error e =>
    rw [hf] at h
    exact Or.inl h
  | ok arts =>
    rw [hf] at h
    simp only [] at h
    cases hi : (ingestArticles st.blocked_articles st.news_articles arts).2.2 with
    | some e =>
      rw [hi] at h
      exact ingest_mem_imp st.blocked_articles arts st.news_articles a h
    | none =>
      rw [hi] at h
      simp only [] at h
      cases hg : alGet n st.news_updates with
      | some job =>
        rw [hg] at h
        simp only [] at h
        by_cases hr : pythonTruthy job.repeats
        · rw [if_pos hr] at h
          have hs := (sched_news_other cfg.news_update_interval_seconds n
            { st with news_articles := (ingestArticles st.blocked_articles st.news_articles arts).1 }).2.2.2.1
          rw [hs] at h
          exact ingest_mem_imp st.blocked_articles arts st.news_articles a h
        · rw [if_neg hr] at h
          exact ingest_mem_imp st.blocked_articles arts st.news_articles a h
      | none =>
        rw [hg] at h
        by_cases hn : pythonTruthy n = true
        · rw [if_pos hn] at h
          exact ingest_mem_imp st.blocked_articles arts st.news_articles a h
        · rw [if_neg hn] at h
          exact ingest_mem_imp st.blocked_articles arts st.news_articles a h

lemma update_news_nodup (n : Option String) (cfg : Config) (raw : List RawArticle)
    (st : SysState) (h : st.news_articles.Nodup) :
    (update_news n cfg raw st).state.news_articles.Nodup := by
  unfold update_news
  simp only []
  cases hf : (news_API_request cfg raw cfg.news_search_terms).2 with
  | error e => exact h
  | ok arts =>
    simp only []
    have hn2 := ingest_nodup st.blocked_articles arts st.news_articles h
    cases hi : (ingestArticles st.blocked_articles st.news_articles arts).2.2 with
    | some e => exact hn2
    | none =>
      simp only []
      cases hg : alGet n st.news_updates with
      | some job =>
        simp only []
        by_cases hr : pythonTruthy job.repeats
        · rw [if_pos hr]
          have hs := (sched_news_other cfg.news_update_interval_seconds n
            { st with news_articles := (ingestArticles st.blocked_articles st.news_articles arts).1 }).2.2.2.1
          show ((schedule_news_updates cfg.news_update_interval_seconds n _).1.news_articles).Nodup
          rw [hs]
          exact hn2
        · rw [if_neg hr]
          exact hn2
      | none =>
        by_cases hnn : pythonTruthy n = true
        · rw [if_pos hnn]
          exact hn2
        · rw [if_neg hnn]
          exact hn2

lemma removeCovid_effects (name : String) (st : SysState) :
    ((removeCovidPart name st).state.news_updates = st.news_updates)
    ∧ ((removeCovidPart name st).state.news_queue = st.news_queue)
    ∧ ((removeCovidPart name st).state.news_articles = st.news_articles)
    ∧ ((removeCovidPart name st).state.blocked_articles = st.blocked_articles)
    ∧ (∀ k, alMem k (removeCovidPart name st).state.covid_updates = true →
         alMem k st.covid_updates = true) := by
  unfold removeCovidPart
  cases hg : alGet (some name) st.covid_updates with
  | none => exact ⟨rfl, rfl, rfl, rfl, fun k h => h⟩
  | some job =>
    simp only []
    cases hu : job.update with
    | none => exact ⟨rfl, rfl, rfl, rfl, fun k h => h⟩
    | some ev =>
      simp only []
      cases hc : cancelEvent ev st.covid_queue with
      | error e => exact ⟨rfl, rfl, rfl, rfl, fun k h => h⟩
      | ok q =>
        refine ⟨rfl, rfl, rfl, rfl, fun k h => ?_⟩
        have h2 : alMem k (alPop (some name) st.covid_updates) = true := h
        exact ((al_mem_pop_iff k (some name) _).mp h2).1

lemma removeNews_effects (name : String) (st : SysState) :
    ((removeNewsPart name st).state.covid_updates = st.covid_updates)
    ∧ ((removeNewsPart name st).state.covid_queue = st.covid_queue)
    ∧ ((removeNewsPart name st).state.news_articles = st.news_articles)
    ∧ ((removeNewsPart name st).state.blocked_articles = st.blocked_articles)
    ∧ (∀ k, alMem k (removeNewsPart name st).state.news_updates = true →
         alMem k st.news_updates = true) := by
  unfold removeNewsPart
  cases hg : alGet (some name) st.news_updates with
  | none => exact ⟨rfl, rfl, rfl, rfl, fun k h => h⟩
  | some job =>
    simp only []
    cases hu : job.update with
    | none => exact ⟨rfl, rfl, rfl, rfl, fun k h => h⟩
    | some ev =>
      simp only []
      cases hc : cancelEvent ev st.news_queue with
      | error e => exact ⟨rfl, rfl, rfl, rfl, fun k h => h⟩
      | ok q =>
        refine ⟨rfl, rfl, rfl, rfl, fun k h => ?_⟩
        have h2 : alMem k (alPop (some name) st.news_updates) = true := h
        exact ((al_mem_pop_iff k (some name) _).mp h2).1

lemma remove_update_effects (name : String) (st : SysState) :
    ((remove_update name st).state.news_articles = st.news_articles)
    ∧ ((remove_update name st).state.blocked_articles = st.blocked_articles)
    ∧ (∀ k, alMem k (remove_update name st).state.covid_updates = true →
         alMem k st.covid_updates = true)
    ∧ (∀ k, alMem k (remove_update name st).state.news_updates = true →
         alMem k st.news_updates = true) := by
  unfold remove_update seqOp
  cases he : (removeCovidPart name st).err with
  | some e =>
    refine ⟨(removeCovid_effects name st).2.2.1, (removeCovid_effects name st).2.2.2.1,
      fun k h => (removeCovid_effects name st).2.2.2.2 k h,
      fun k h => ?_⟩
    rw [(removeCovid_effects name st).1] at h
    exact h
  | none =>
    simp only []
    have hc := removeCovid_effects name st
    have hn := removeNews_effects name (removeCovidPart name st).state
    refine ⟨by rw [hn.2.2.1, hc.2.2.1], by rw [hn.2.2.2.1, hc.2.2.2.1],
      fun k h => ?_, fun k h => ?_⟩
    · rw [hn.1] at h
      exact hc.2.2.2.2 k h
    · have := hn.2.2.2.2 k h
      rw [hc.1] at this
      exact this


lemma seqOp_state_of_id (r : OpResult) (f : SysState → OpResult)
    (hf : ∀ s, (f s).state = s) : (seqOp r f).state = r.state := by
  unfold seqOp
  cases he : r.err with
  | some e => rfl
  | none => exact hf r.state

lemma create_update_gate (t : String) (args : ReqArgs) (now : Int) (st : SysState)
    (hm : (alMem args.name st.covid_updates || alMem args.name st.news_updates) = true) :
    create_update t args now st = ⟨st, [(Level.warning, "Update name already exists.")], none⟩ := by
  unfold create_update
  rw [if_neg (by simp [hm])]

lemma stage3_state (args : ReqArgs) :
    ∀ s, ((fun s => if !pythonTruthy args.update_covid && !pythonTruthy args.update_news then
        (⟨s, [(Level.warning, "Empty update created, request ignored.")], none⟩ : OpResult)
      else ⟨s, [], none⟩) s).state = s := by
  intro s
  simp only []
  split <;> rfl

lemma create_update_state (t : String) (args : ReqArgs) (now : Int) (st : SysState)
    (hm : (alMem args.name st.covid_updates || alMem args.name st.news_updates) = false) :
    (create_update t args now st).state =
      (seqOp (if pythonTruthy args.update_covid then
                create_covid_update t args.name args.repeats now st
              else ⟨st, [], none⟩)
             (fun s => if pythonTruthy args.update_news then
                create_news_update t args.name args.repeats now s
              else ⟨s, [], none⟩)).state := by
  unfold create_update
  rw [if_pos (by rw [hm]; rfl)]
  exact seqOp_state_of_id _ _ (stage3_state args)

lemma create_update_effects (t : String) (args : ReqArgs) (now : Int) (st : SysState) :
    (create_update t args now st).state.news_articles = st.news_articles
    ∧ (create_update t args now st).state.blocked_articles = st.blocked_articles := by
  cases hm : (alMem args.name st.covid_updates || alMem args.name st.news_updates) with
  | true => rw [create_update_gate t args now st hm]; exact ⟨rfl, rfl⟩
  | false =>
    rw [create_update_state t args now st hm]
    unfold seqOp
    by_cases hc : pythonTruthy args.update_covid
    · rw [if_pos hc]
      cases he : (create_covid_update t args.name args.repeats now st).err with
      | some e => exact ⟨(create_covid_other t args.name args.repeats now st).2.2.1,
          (create_covid_other t args.name args.repeats now st).2.2.2⟩
      | none =>
        simp only []
        by_cases hn : pythonTruthy args.update_news
        · rw [if_pos hn]
          have h1 := create_news_other t args.name args.repeats now
            ((create_covid_update t args.name args.repeats now st).state)
          have h2 := create_covid_other t args.name args.repeats now st
          exact ⟨h1.2.2.1.trans h2.2.2.1, h1.2.2.2.trans h2.2.2.2⟩
        · rw [if_neg hn]
          exact ⟨(create_covid_other t args.name args.repeats now st).2.2.1,
            (create_covid_other t args.name args.repeats now st).2.2.2⟩
    · rw [if_neg hc]
      simp only []
      by_cases hn : pythonTruthy args.update_news
      · rw [if_pos hn]
        exact ⟨(create_news_other t args.name args.repeats now st).2.2.1,
          (create_news_other t args.name args.repeats now st).2.2.2⟩
      · rw [if_neg hn]
        exact ⟨rfl, rfl⟩

lemma block_article_effects (title : String) (st : SysState) :
    (block_article title st).state.covid_updates = st.covid_updates
    ∧ (block_article title st).state.news_updates = st.news_updates
    ∧ (block_article title st).state.blocked_articles = st.blocked_articles ++ [title]
    ∧ (block_article title st).state.news_articles = blockSweep title st.news_articles := by
  exact ⟨rfl, rfl, rfl, rfl⟩


lemma create_update_disjoint (t : String) (args : ReqArgs) (now : Int) (st : SysState)
    (hdual : ¬(pythonTruthy args.update_covid = true ∧ pythonTruthy args.update_news = true))
    (hdisj : RegDisjoint st) : RegDisjoint (create_update t args now st).state := by
  cases hm : (alMem args.name st.covid_updates || alMem args.name st.news_updates) with
  | true =>
    rw [create_update_gate t args now st hm]
    exact hdisj
  | false =>
    have hmc : alMem args.name st.covid_updates = false := (Bool.or_eq_false_iff.mp hm).1
    have hmn : alMem args.name st.news_updates = false := (Bool.or_eq_false_iff.mp hm).2
    rw [create_update_state t args now st hm]
    unfold seqOp
    by_cases hc : pythonTruthy args.update_covid = true
    · have hn : ¬ pythonTruthy args.update_news = true := fun h => hdual ⟨hc, h⟩
      rw [if_pos hc]
      cases he : (create_covid_update t args.name args.repeats now st).err with
      | some e =>
        rintro k ⟨h1, h2⟩
        rw [(create_covid_other t args.name args.repeats now st).1] at h2
        rcases (create_covid_mem_iff t args.name args.repeats k now st).mp h1 with h1c | rfl
        · exact hdisj k ⟨h1c, h2⟩
        · exact absurd h2 (by simp [hmn])
      | none =>
        simp only []
        rw [if_neg hn]
        rintro k ⟨h1, h2⟩
        rw [(create_covid_other t args.name args.repeats now st).1] at h2
        rcases (create_covid_mem_iff t args.name args.repeats k now st).mp h1 with h1c | rfl
        · exact hdisj k ⟨h1c, h2⟩
        · exact absurd h2 (by simp [hmn])
    · rw [if_neg hc]
      simp only []
      by_cases hn : pythonTruthy args.update_news = true
      · rw [if_pos hn]
        rintro k ⟨h1, h2⟩
        rw [(create_news_other t args.name args.repeats now st).1] at h1
        rcases (create_news_mem_iff t args.name args.repeats k now st).mp h2 with h2c | rfl
        · exact hdisj k ⟨h1, h2c⟩
        · exact absurd h1 (by simp [hmc])
      · rw [if_neg hn]
        exact hdisj

lemma step_disjoint {s s' : SysState} (hstep : Step false s s')
    (hdisj : RegDisjoint s) : RegDisjoint s' := by
  cases hstep with
  | create t args now s hcond =>
    apply create_update_disjoint t args now s _ hdisj
    rintro ⟨h1, h2⟩
    rw [Bool.false_or] at hcond
    rw [h1, h2] at hcond
    simp at hcond
  | remove name s =>
    rintro k ⟨h1, h2⟩
    exact hdisj k ⟨(remove_update_effects name s).2.2.1 k h1,
      (remove_update_effects name s).2.2.2 k h2⟩
  | fireCovid n cfg fL fN s =>
    rintro k ⟨h1, h2⟩
    rw [(run_covid_other n cfg fL fN s).1] at h2
    exact hdisj k ⟨run_covid_mem_imp n k cfg fL fN s h1, h2⟩
  | fireNews n cfg raw s =>
    rintro k ⟨h1, h2⟩
    rw [(update_news_other n cfg raw s).1] at h1
    exact hdisj k ⟨h1, update_news_mem_imp n k cfg raw s h2⟩
  | blockTitle title s =>
    rintro k ⟨h1, h2⟩
    exact hdisj k ⟨h1, h2⟩

lemma reachable_single_disjoint {s : SysState} (h : Reachable false s) : RegDisjoint s := by
  induction h with
  | init =>
    rintro k ⟨h1, h2⟩
    simp [initState, alMem] at h1
  | step hr hstep ih =>
    exact step_disjoint hstep ih


lemma blockSweep_mem_aux (t : String) :
    ∀ (m : Nat) (l : List FormattedArticle), l.length ≤ m →
      ∀ a, a ∈ blockSweep t l → a ∈ l := by
  intro m
  induction m with
  | zero =>
    intro l hl a h
    have : l = [] := List.eq_nil_of_length_eq_zero (Nat.le_zero.mp hl)
    subst this
    simp [blockSweep] at h
  | succ m ih =>
    intro l hl a h
    cases l with
    | nil => simp [blockSweep] at h
    | cons x xs =>
      rw [blockSweep.eq_def] at h
      simp only [] at h
      by_cases hx : (x.title == t) = true
      · rw [if_pos hx] at h
        cases xs with
        | nil => simp at h
        | cons y ys =>
          rcases List.mem_cons.mp h with rfl | h2
          · exact List.mem_cons_of_mem _ (List.mem_cons_self _ _)
          · have hy : a ∈ ys := by
              refine ih ys ?_ a h2
              simp only [List.length_cons] at hl
              omega
            exact List.mem_cons_of_mem _ (List.mem_cons_of_mem _ hy)
      · rw [if_neg hx] at h
        rcases List.mem_cons.mp h with rfl | h2
        · exact List.mem_cons_self _ _
        · have hxs : a ∈ xs := by
            refine ih xs ?_ a h2
            simp only [List.length_cons] at hl
            omega
          exact List.mem_cons_of_mem _ hxs

lemma blockSweep_mem_imp (t : String) (l : List FormattedArticle) (a : FormattedArticle)
    (h : a ∈ blockSweep t l) : a ∈ l :=
  blockSweep_mem_aux t l.length l (Nat.le_refl _) a h

lemma blockSweep_of_count_zero (t : String) (l : List FormattedArticle)
    (h : l.countP (fun a => a.title == t) = 0) : blockSweep t l = l := by
  induction l with
  | nil => rfl
  | cons x xs ih =>
    have hx : (x.title == t) = false := by
      rcases List.countP_eq_zero.mp h x (List.mem_cons_self _ _) with h2
      simpa using h2
    rw [blockSweep.eq_def]
    simp only []
    rw [if_neg (by simp [hx])]
    rw [ih (by
      refine List.countP_eq_zero.mpr ?_
      intro a ha
      exact List.countP_eq_zero.mp h a (List.mem_cons_of_mem _ ha))]

lemma filter_of_count_zero (t : String) (l : List FormattedArticle)
    (h : l.countP (fun a => a.title == t) = 0) :
    l.filter (fun a => !(a.title == t)) = l := by
  refine List.filter_eq_self.mpr ?_
  intro a ha
  have := List.countP_eq_zero.mp h a ha
  simpa using this

lemma blockSweep_eq_filter (t : String) (l : List FormattedArticle)
    (h : l.countP (fun a => a.title == t) ≤ 1) :
    blockSweep t l = l.filter (fun a => !(a.title == t)) := by
  induction l with
  | nil => rfl
  | cons x xs ih =>
    by_cases hx : (x.title == t) = true
    · have hcnt : xs.countP (fun a => a.title == t) = 0 := by
        rw [List.countP_cons] at h
        rw [hx] at h
        simp only [if_pos] at h
        omega
      rw [blockSweep.eq_def]
      simp only []
      rw [if_pos hx]
      rw [List.filter_cons, if_neg (by simp [hx])]
      rw [filter_of_count_zero t xs hcnt]
      cases xs with
      | nil => rfl
      | cons y ys =>
        show y :: blockSweep t ys = y :: ys
        have hy : (y.title == t) = false := by
          have := List.countP_eq_zero.mp hcnt y (List.mem_cons_self _ _)
          simpa using this
        have hys : ys.countP (fun a => a.title == t) = 0 := by
          refine List.countP_eq_zero.mpr ?_
          intro a ha
          exact List.countP_eq_zero.mp hcnt a (List.mem_cons_of_mem _ ha)
        rw [blockSweep_of_count_zero t ys hys]

    · have hcnt : xs.countP (fun a => a.title == t) ≤ 1 := by
        rw [List.countP_cons] at h
        have hxf : (x.title == t) = false := by simpa using hx
        rw [hxf] at h
        simp at h
        omega
      rw [blockSweep.eq_def]
      simp only []
      rw [if_neg hx]
      rw [List.filter_cons, if_pos (by simp [hx])]
      rw [ih hcnt]


lemma step_titleBlocked {b : Bool} {t : String} {s s' : SysState} (hstep : Step b s s')
    (hinv : TitleBlockedInv t s) : TitleBlockedInv t s' := by
  obtain ⟨hb, ha⟩ := hinv
  cases hstep with
  | create t2 args now s hcond =>
    refine ⟨?_, fun a hmem => ?_⟩
    · rw [(create_update_effects t2 args now s).2]
      exact hb
    · rw [(create_update_effects t2 args now s).1] at hmem
      exact ha a hmem
  | remove name s =>
    refine ⟨?_, fun a hmem => ?_⟩
    · rw [(remove_update_effects name s).2.1]
      exact hb
    · rw [(remove_update_effects name s).1] at hmem
      exact ha a hmem
  | fireCovid n cfg fL fN s =>
    refine ⟨?_, fun a hmem => ?_⟩
    · rw [(run_covid_other n cfg fL fN s).2.2.2]
      exact hb
    · rw [(run_covid_other n cfg fL fN s).2.2.1] at hmem
      exact ha a hmem
  | fireNews n cfg raw s =>
    refine ⟨?_, fun a hmem => ?_⟩
    · rw [(update_news_other n cfg raw s).2.2.2]
      exact hb
    · rcases update_news_articles_imp n cfg raw s a hmem with h1 | h1
      · exact ha a h1
      · intro hat
        have h2 : a.title ∉ s.blocked_articles := by simpa using h1
        rw [hat] at h2
        exact h2 hb
  | blockTitle title s =>
    refine ⟨?_, fun a hmem => ?_⟩
    · rw [(block_article_effects title s).2.2.1]
      exact List.mem_append_left _ hb
    · rw [(block_article_effects title s).2.2.2] at hmem
      exact ha a (blockSweep_mem_imp title s.news_articles a hmem)


/-- C10: `format_update` renders `"<time>, Updates <joined data types>,
<repeat clause>"`, where the joined types are "Covid", "News" or
"Covid & News" according to the flags and the clause is "Repeats" for a
truthy repeats value, else the negated repeat clause; in particular the two
documented examples hold. -/
theorem C10_format_update :
    (∀ (u : Job) (covid news : Bool),
      format_update u covid news =
        u.time ++ ", Updates " ++
          (match covid, news with
           | true, true => "Covid & News"
           | true, false => "Covid"
           | false, true => "News"
           | false, false => "") ++ ", " ++
          (if pythonTruthy u.repeats then "Repeats" else "Doesn\x27t Repeat"))
    ∧ format_update ⟨"01:23", some "repeat", none⟩ true true
        = "01:23, Updates Covid & News, Repeats"
    ∧ format_update ⟨"12:34", none, none⟩ false true
        = "12:34, Updates News, Doesn\x27t Repeat" := by
  refine ⟨?_, rfl, rfl⟩
  intro u covid news
  cases covid <;> cases news <;> cases hr : pythonTruthy u.repeats <;>
    simp [format_update, pyJoin, hr, String.append_assoc]

/-- C5: for a successfully parsed "HH:MM" target, both creation paths arm
exactly one scheduler entry whose delay is the `timedelta`-seconds value,
which equals the wrapped seconds-of-day difference between the target and
the current time of day, and always lies in `[0, 86400)`. -/
theorem C5_delay_wrap_bounds :
    ∀ (t : String) (h m : Nat) (now : Int) (n r : Option String) (st : SysState),
      strptimeHM t = .ok (h, m) →
      ((create_covid_update t n r now st).state.covid_queue
         = st.covid_queue ++ [⟨st.nextId, delaySeconds h m now, n⟩])
      ∧ ((create_news_update t n r now st).state.news_queue
         = st.news_queue ++ [⟨st.nextId, delaySeconds h m now, n⟩])
      ∧ delaySeconds h m now = specSecondsOfDayDelay h m now
      ∧ 0 ≤ delaySeconds h m now ∧ delaySeconds h m now < 86400 := by
  intro t h m now n r st hp
  refine ⟨?_, ?_, ?_, ?_, ?_⟩
  · unfold create_covid_update
    rw [hp]
    simp only []
    rw [sched_covid_eq]
    split <;> rfl
  · unfold create_news_update
    rw [hp]
    simp only []
    rw [sched_news_eq]
    split <;> rfl
  · unfold delaySeconds tdSeconds specSecondsOfDayDelay
    omega
  · unfold delaySeconds tdSeconds
    omega
  · unfold delaySeconds tdSeconds
    omega

/-- Witness for C5 at the concrete time "01:23" and now = 0. -/
theorem C5_delay_wrap_bounds_witness :
    delaySeconds 1 23 0 = specSecondsOfDayDelay 1 23 0
    ∧ 0 ≤ delaySeconds 1 23 0 ∧ delaySeconds 1 23 0 < 86400 :=
  ⟨(C5_delay_wrap_bounds "01:23" 1 23 0 none none initState (by rfl)).2.2.1,
   (C5_delay_wrap_bounds "01:23" 1 23 0 none none initState (by rfl)).2.2.2.1,
   (C5_delay_wrap_bounds "01:23" 1 23 0 none none initState (by rfl)).2.2.2.2⟩

/-- C4: creating an update under a name present in either registry is a
pure no-op producing exactly the single "already exists" warning. -/
theorem C4_duplicate_create_rejected :
    ∀ (t : String) (args : ReqArgs) (now : Int) (st : SysState),
      (alMem args.name st.covid_updates = true ∨ alMem args.name st.news_updates = true) →
      create_update t args now st
        = ⟨st, [(Level.warning, "Update name already exists.")], none⟩ := by
  intro t args now st hmem
  apply create_update_gate
  rcases hmem with h | h <;> simp [h]

/-- Witness for C4 at a state whose covid registry holds "x". -/
theorem C4_duplicate_create_rejected_witness :
    alMem (some "x") stWithX.covid_updates = true
    ∧ create_update "11:00" ⟨some "x", some "1", none, none⟩ 5 stWithX
        = ⟨stWithX, [(Level.warning, "Update name already exists.")], none⟩ :=
  ⟨rfl, C4_duplicate_create_rejected "11:00" ⟨some "x", some "1", none, none⟩ 5 stWithX (Or.inl rfl)⟩

/-- C9: with the placeholder API key, the news fetch raises `ValueError`;
`update_news` surfaces it to the caller and the whole state — in
particular the stored articles and the covid data — is left unchanged. -/
theorem C9_missing_key_surfaced :
    ∀ (n : Option String) (cfg : Config) (raw : List RawArticle) (st : SysState),
      cfg.news_API_key = "[API_KEY_HERE]" →
      (news_API_request cfg raw cfg.news_search_terms).2
          = .error "ValueError: The news API key has not been set in config.json"
      ∧ update_news n cfg raw st
          = ⟨st, [(Level.info, "Requesting recent top headlines..."),
                  (Level.critical, "The news API key has not been set in config.json")],
             some "ValueError: The news API key has not been set in config.json"⟩ := by
  intro n cfg raw st hk
  have h1 : news_API_request cfg raw cfg.news_search_terms
      = ([(Level.info, "Requesting recent top headlines..."),
          (Level.critical, "The news API key has not been set in config.json")],
         .error "ValueError: The news API key has not been set in config.json") := by
    unfold news_API_request
    rw [if_pos (by simp [hk])]
    rfl
  refine ⟨by rw [h1], ?_⟩
  unfold update_news
  rw [h1]

/-- Witness for C9 at the placeholder-key configuration. -/
theorem C9_missing_key_surfaced_witness :
    (update_news none cfgNoKey [] initState).err
        = some "ValueError: The news API key has not been set in config.json"
    ∧ (update_news none cfgNoKey [] initState).state = initState := by
  have h := (C9_missing_key_surfaced none cfgNoKey [] initState rfl).2
  exact ⟨by rw [h], by rw [h]⟩


lemma al_get_handle_append (n : Option String) (ev : Nat) (v : Job) :
    ∀ (l : List (Option String × Job)), alMem n l = false →
      alGet n (alSetHandle n ev (l ++ [(n, v)])) = some { v with update := some ev } := by
  intro l
  induction l with
  | nil =>
    intro h
    simp [alSetHandle, alGet]
  | cons p ps ih =>
    intro h
    have hp : (p.1 == n) = false := by
      by_cases hb : (p.1 == n) = true
      · rw [show alMem n (p :: ps) = ((p.1 == n) || alMem n ps) from rfl, hb] at h
        simp at h
      · exact eq_false_of_ne_true hb
    have hps : alMem n ps = false := by
      rw [show alMem n (p :: ps) = ((p.1 == n) || alMem n ps) from rfl, hp] at h
      simpa using h
    have hfp : (if (p.1 == n) = true then (p.1, { p.2 with update := some ev }) else p) = p := by
      rw [if_neg (by simp [hp])]
    show alGet n ((if (p.1 == n) = true then (p.1, { p.2 with update := some ev }) else p)
        :: alSetHandle n ev (ps ++ [(n, v)])) = _
    rw [hfp]
    show (if (p.1 == n) = true then some p.2 else alGet n (alSetHandle n ev (ps ++ [(n, v)]))) = _
    rw [if_neg (by simp [hp])]
    exact ih hps

lemma al_get_dummy_sched_covid (i : Int) (n : Option String) (st : SysState)
    (h : alMem n st.covid_updates = false) :
    alGet n (schedule_covid_updates i n st).1.covid_updates
      = some ⟨"None", none, some st.nextId⟩ := by
  rw [sched_covid_eq, if_neg (by simp [h])]
  show alGet n (alSetHandle n st.nextId (alSet n ⟨"None", none, none⟩ st.covid_updates)) = _
  unfold alSet
  rw [if_neg (by simp [h])]
  exact al_get_handle_append n st.nextId ⟨"None", none, none⟩ st.covid_updates h

lemma al_get_dummy_sched_news (i : Int) (n : Option String) (st : SysState)
    (h : alMem n st.news_updates = false) :
    alGet n (schedule_news_updates i n st).1.news_updates
      = some ⟨"None", none, some st.nextId⟩ := by
  rw [sched_news_eq, if_neg (by simp [h])]
  show alGet n (alSetHandle n st.nextId (alSet n ⟨"None", none, none⟩ st.news_updates)) = _
  unfold alSet
  rw [if_neg (by simp [h])]
  exact al_get_handle_append n st.nextId ⟨"None", none, none⟩ st.news_updates h


/-- C1 counterexample: one `create_update` requesting both domains puts
the same name "x" into both registries, in a reachable state. -/
theorem C1_claim_counterexample :
    Reachable true (create_update "10:00" ⟨some "x", some "1", some "1", none⟩ 0 initState).state
    ∧ alMem (some "x")
        (create_update "10:00" ⟨some "x", some "1", some "1", none⟩ 0 initState).state.covid_updates
        = true
    ∧ alMem (some "x")
        (create_update "10:00" ⟨some "x", some "1", some "1", none⟩ 0 initState).state.news_updates
        = true :=
  ⟨Reachable.step Reachable.init (Step.create _ _ _ _ rfl), rfl, rfl⟩

/-- C1 amended: in every state reachable using only single-domain
creations, no name is a key of both registries. -/
theorem C1_registries_disjoint_single_domain :
    ∀ s : SysState, Reachable false s →
      ∀ k, ¬(alMem k s.covid_updates = true ∧ alMem k s.news_updates = true) :=
  fun _ h => reachable_single_disjoint h

/-- Witness for C1 at the initial state and name "x". -/
theorem C1_registries_disjoint_single_domain_witness :
    ¬(alMem (some "x") initState.covid_updates = true
      ∧ alMem (some "x") initState.news_updates = true) :=
  C1_registries_disjoint_single_domain initState Reachable.init (some "x")

/-- C2: a fired update whose name is registered re-arms exactly one fresh
scheduler entry with the configured interval and keeps its registry entry
when `repeats` is truthy, and drops its entry (arming nothing) otherwise;
for the news domain this holds whenever the fetch-and-ingest stage does
not raise. -/
theorem C2_fired_update_repeat_or_retire :
    ∀ (n : Option String) (cfg : Config) (fL fN : List String) (raw : List RawArticle)
      (st : SysState) (job : Job),
      (alGet n st.covid_updates = some job →
        if pythonTruthy job.repeats then
          alMem n (run_covid_update n cfg fL fN st).state.covid_updates = true
          ∧ (run_covid_update n cfg fL fN st).state.covid_queue
              = st.covid_queue ++ [⟨st.nextId, cfg.covid_update_interval_seconds, n⟩]
        else
          alMem n (run_covid_update n cfg fL fN st).state.covid_updates = false
          ∧ (run_covid_update n cfg fL fN st).state.covid_queue = st.covid_queue)
      ∧ (alGet n st.news_updates = some job →
         (update_news n cfg raw st).err = none →
          if pythonTruthy job.repeats then
            alMem n (update_news n cfg raw st).state.news_updates = true
            ∧ (update_news n cfg raw st).state.news_queue
                = st.news_queue ++ [⟨st.nextId, cfg.news_update_interval_seconds, n⟩]
          else
            alMem n (update_news n cfg raw st).state.news_updates = false
            ∧ (update_news n cfg raw st).state.news_queue = st.news_queue) := by
  intro n cfg fL fN raw st job
  constructor
  · intro hget
    have hmem : alMem n st.covid_updates = true := al_get_mem hget
    unfold run_covid_update covid_API_request
    simp only []
    rw [hget]
    simp only []
    by_cases hr : pythonTruthy job.repeats = true
    · rw [if_pos hr, hr, if_pos rfl]
      rw [sched_covid_eq]
      rw [if_pos (show alMem n _ = true from hmem)]
      constructor
      · show alMem n (alSetHandle n _ _) = true
        rw [al_mem_setHandle]
        exact hmem
      · rfl
    · have hrf : pythonTruthy job.repeats = false := eq_false_of_ne_true hr
      rw [if_neg hr, hrf]
      simp only [Bool.false_eq_true, if_false]
      constructor
      · show alMem n (alPop n st.covid_updates) = false
        cases hh : alMem n (alPop n st.covid_updates) with
        | false => rfl
        | true => exact absurd rfl ((al_mem_pop_iff n n st.covid_updates).mp hh).2
      · trivial
  · intro hget herr
    have hmem : alMem n st.news_updates = true := al_get_mem hget
    unfold update_news at herr ⊢
    simp only [] at herr ⊢
    cases hf : (news_API_request cfg raw cfg.news_search_terms).2 with
    | error e =>
      rw [hf] at herr
      simp at herr
    | ok arts =>
      rw [hf] at herr
      simp only [] at herr ⊢
      cases hi : (ingestArticles st.blocked_articles st.news_articles arts).2.2 with
      | some e =>
        rw [hi] at herr
        simp at herr
      | none =>
        simp only []
        rw [hget]
        simp only []
        by_cases hr : pythonTruthy job.repeats = true
        · rw [if_pos hr, hr, if_pos rfl]
          rw [sched_news_eq]
          rw [if_pos (show alMem n _ = true from hmem)]
          constructor
          · show alMem n (alSetHandle n _ _) = true
            rw [al_mem_setHandle]
            exact hmem
          · rfl
        · have hrf : pythonTruthy job.repeats = false := eq_false_of_ne_true hr
          rw [if_neg hr, hrf]
          simp only [Bool.false_eq_true, if_false]
          constructor
          · show alMem n (alPop n st.news_updates) = false
            cases hh : alMem n (alPop n st.news_updates) with
            | false => rfl
            | true => exact absurd rfl ((al_mem_pop_iff n n st.news_updates).mp hh).2
          · trivial


/-- Witness for C2 at a state registering the repeating job "y" in both
domains. -/
theorem C2_fired_update_repeat_or_retire_witness :
    (if pythonTruthy jobRep.repeats then
       alMem (some "y") (run_covid_update (some "y") cfgGood [] [] stBoth).state.covid_updates = true
       ∧ (run_covid_update (some "y") cfgGood [] [] stBoth).state.covid_queue
           = stBoth.covid_queue ++ [⟨stBoth.nextId, cfgGood.covid_update_interval_seconds, some "y"⟩]
     else
       alMem (some "y") (run_covid_update (some "y") cfgGood [] [] stBoth).state.covid_updates = false
       ∧ (run_covid_update (some "y") cfgGood [] [] stBoth).state.covid_queue = stBoth.covid_queue)
    ∧ (if pythonTruthy jobRep.repeats then
         alMem (some "y") (update_news (some "y") cfgGood [rawDup1] stBoth).state.news_updates = true
         ∧ (update_news (some "y") cfgGood [rawDup1] stBoth).state.news_queue
             = stBoth.news_queue ++ [⟨stBoth.nextId, cfgGood.news_update_interval_seconds, some "y"⟩]
       else
         alMem (some "y") (update_news (some "y") cfgGood [rawDup1] stBoth).state.news_updates = false
         ∧ (update_news (some "y") cfgGood [rawDup1] stBoth).state.news_queue = stBoth.news_queue) :=
  ⟨(C2_fired_update_repeat_or_retire (some "y") cfgGood [] [] [rawDup1] stBoth jobRep).1 rfl,
   (C2_fired_update_repeat_or_retire (some "y") cfgGood [] [] [rawDup1] stBoth jobRep).2 rfl rfl⟩

/-- C3 counterexample: a fired covid update whose name is not registered
raises a `KeyError` instead of degrading to a warning. -/
theorem C3_claim_counterexample :
    (run_covid_update (some "ghost") cfgGood [] [] initState).err = some "KeyError" := rfl

/-- C3 amended: scheduling either domain with an unknown name synthesizes
a dummy entry and warns; cancelling an unknown name is a no-op; a fired
news update with a truthy unknown name warns and leaves both registries
unchanged (when the fetch-and-ingest stage does not raise); but a fired
covid update with an unknown name raises a `KeyError`. -/
theorem C3_unknown_name_degrades_except_covid_fire :
    ∀ (i : Int) (n : Option String) (name : String) (cfg : Config) (raw : List RawArticle)
      (fL fN : List String) (st : SysState),
      (alMem n st.covid_updates = false →
        alGet n (schedule_covid_updates i n st).1.covid_updates
            = some ⟨"None", none, some st.nextId⟩
        ∧ (schedule_covid_updates i n st).2
            = [(Level.warning, "Update not found, dummy update created.")])
      ∧ (alMem n st.news_updates = false →
        alGet n (schedule_news_updates i n st).1.news_updates
            = some ⟨"None", none, some st.nextId⟩
        ∧ (schedule_news_updates i n st).2
            = [(Level.warning, "Update not found, dummy update created.")])
      ∧ (alMem (some name) st.covid_updates = false →
         alMem (some name) st.news_updates = false →
         remove_update name st = ⟨st, [], none⟩)
      ∧ (alMem n st.news_updates = false → pythonTruthy n = true →
         (update_news n cfg raw st).err = none →
         (update_news n cfg raw st).state.news_updates = st.news_updates
         ∧ (update_news n cfg raw st).state.covid_updates = st.covid_updates
         ∧ (Level.warning, "Update \x27\x7bupdate_name\x7d\x27 does not exist.")
             ∈ (update_news n cfg raw st).logs)
      ∧ (alMem n st.covid_updates = false →
         (run_covid_update n cfg fL fN st).err = some "KeyError") := by
  intro i n name cfg raw fL fN st
  have getNone : ∀ (k : Option String) (l : List (Option String × Job)),
      alMem k l = false → alGet k l = none := by
    intro k l hm
    cases hg : alGet k l with
    | none => rfl
    | some v =>
      have := al_get_mem hg
      rw [hm] at this
      exact absurd this (by simp)
  refine ⟨?_, ?_, ?_, ?_, ?_⟩
  · intro h
    exact ⟨al_get_dummy_sched_covid i n st h, by rw [sched_covid_eq, if_neg (by simp [h])]⟩
  · intro h
    exact ⟨al_get_dummy_sched_news i n st h, by rw [sched_news_eq, if_neg (by simp [h])]⟩
  · intro h1 h2
    have hc : removeCovidPart name st = ⟨st, [], none⟩ := by
      unfold removeCovidPart
      rw [getNone (some name) st.covid_updates h1]
    have hn : removeNewsPart name st = ⟨st, [], none⟩ := by
      unfold removeNewsPart
      rw [getNone (some name) st.news_updates h2]
    unfold remove_update
    rw [hc]
    unfold seqOp
    simp only []
    rw [hn]
    rfl
  · intro h1 hn herr
    unfold update_news at herr ⊢
    simp only [] at herr ⊢
    cases hf : (news_API_request cfg raw cfg.news_search_terms).2 with
    | error e =>
      rw [hf] at herr
      simp at herr
    | ok arts =>
      rw [hf] at herr
      simp only [] at herr ⊢
      cases hi : (ingestArticles st.blocked_articles st.news_articles arts).2.2 with
      | some e =>
        rw [hi] at herr
        simp at herr
      | none =>
        simp only []
        rw [getNone n st.news_updates h1]
        simp only []
        rw [if_pos hn]
        refine ⟨rfl, rfl, ?_⟩
        exact List.mem_append_right _ (List.mem_singleton.mpr rfl)
  · intro h
    unfold run_covid_update covid_API_request
    simp only []
    rw [getNone n st.covid_updates h]

/-- Witness for C3 at the empty initial state, name "g", and a fetch that
succeeds. -/
theorem C3_unknown_name_degrades_except_covid_fire_witness :
    (alGet (some "g") (schedule_covid_updates 10 (some "g") initState).1.covid_updates
        = some ⟨"None", none, some initState.nextId⟩
     ∧ (schedule_covid_updates 10 (some "g") initState).2
        = [(Level.warning, "Update not found, dummy update created.")])
    ∧ (alGet (some "g") (schedule_news_updates 10 (some "g") initState).1.news_updates
        = some ⟨"None", none, some initState.nextId⟩
     ∧ (schedule_news_updates 10 (some "g") initState).2
        = [(Level.warning, "Update not found, dummy update created.")])
    ∧ remove_update "g" initState = ⟨initState, [], none⟩
    ∧ ((update_news (some "g") cfgGood [rawDup1] initState).state.news_updates
          = initState.news_updates
       ∧ (update_news (some "g") cfgGood [rawDup1] initState).state.covid_updates
          = initState.covid_updates
       ∧ (Level.warning, "Update \x27\x7bupdate_name\x7d\x27 does not exist.")
          ∈ (update_news (some "g") cfgGood [rawDup1] initState).logs)
    ∧ (run_covid_update (some "g") cfgGood [] [] initState).err = some "KeyError" := by
  have h := C3_unknown_name_degrades_except_covid_fire 10 (some "g") "g" cfgGood [rawDup1] [] [] initState
  exact ⟨h.1 rfl, h.2.1 rfl, h.2.2.1 rfl rfl, h.2.2.2.1 rfl rfl rfl, h.2.2.2.2 rfl⟩


/-- C6: when no fetched article matches, the fetch yields exactly the one
sentinel article (with the fixed title and empty content), and the ingest
step never adds it to the store: the stored-article list is unchanged
(`format_article` raises `KeyError` on the sentinel before any append). -/
theorem C6_sentinel_not_stored :
    ∀ (n : Option String) (cfg : Config) (raw : List RawArticle) (st : SysState),
      (cfg.news_API_key == "[API_KEY_HERE]") = false →
      filter_articles raw cfg.news_search_terms = [] →
      (news_API_request cfg raw cfg.news_search_terms).2 = .ok [sentinelArticle]
      ∧ sentinelArticle.title = "No relevant articles currently"
      ∧ sentinelArticle.content = some ""
      ∧ (update_news n cfg raw st).state.news_articles = st.news_articles := by
  intro n cfg raw st hk hf
  have h1 : news_API_request cfg raw cfg.news_search_terms
      = ([(Level.info, "Requesting recent top headlines...")], .ok [sentinelArticle]) := by
    unfold news_API_request
    rw [if_neg (by simp [hk])]
    simp only []
    rw [hf]
    rfl
  have h2 : ingestArticles st.blocked_articles st.news_articles [sentinelArticle]
      = (st.news_articles, [], some "KeyError: \x27url\x27") := rfl
  refine ⟨by rw [h1], rfl, rfl, ?_⟩
  unfold update_news
  simp only []
  rw [h1]
  simp only []
  rw [h2]

/-- Witness for C6 at a configured key, empty fetch response and the
initial state. -/
theorem C6_sentinel_not_stored_witness :
    (news_API_request cfgGood [] cfgGood.news_search_terms).2 = .ok [sentinelArticle]
    ∧ (update_news none cfgGood [] initState).state.news_articles
        = initState.news_articles := by
  have h := C6_sentinel_not_stored none cfgGood [] initState rfl rfl
  exact ⟨h.1, h.2.2.2⟩

/-- C7 counterexample: with two stored articles sharing the title "dup"
(a reachable store), blocking "dup" removes only the first; an article
with the blocked title survives in the store. -/
theorem C7_claim_counterexample :
    Reachable true (block_article "dup" stDup).state
    ∧ "dup" ∈ (block_article "dup" stDup).state.blocked_articles
    ∧ (block_article "dup" stDup).state.news_articles.any (fun a => a.title == "dup") = true :=
  ⟨Reachable.step (Reachable.step Reachable.init
      (Step.fireNews none cfgGood [rawDup1, rawDup2] initState))
      (Step.blockTitle "dup" stDup),
   by decide, rfl⟩

/-- C7 amended: provided the store holds at most one article with the
title (true of every title-unique store), `block_article` removes every
stored article carrying it and records the block; and once
`TitleBlockedInv` holds, every further operation preserves it, so no
later ingest re-adds an article with that exact title. -/
theorem C7_block_article_removes_and_blocks :
    ∀ (title : String) (st : SysState),
      (st.news_articles.countP (fun a => a.title == title) ≤ 1 →
        (block_article title st).state.news_articles
            = st.news_articles.filter (fun a => !(a.title == title))
        ∧ TitleBlockedInv title (block_article title st).state)
      ∧ (∀ (b : Bool) (s s' : SysState),
          TitleBlockedInv title s → Step b s s' → TitleBlockedInv title s') := by
  intro title st
  constructor
  · intro hcnt
    have hsweep : blockSweep title st.news_articles
        = st.news_articles.filter (fun a => !(a.title == title)) :=
      blockSweep_eq_filter title st.news_articles hcnt
    refine ⟨hsweep, ?_, ?_⟩
    · show title ∈ st.blocked_articles ++ [title]
      exact List.mem_append_right _ (List.mem_singleton.mpr rfl)
    · intro a hmem
      show a.title ≠ title
      have hmem2 : a ∈ st.news_articles.filter (fun a => !(a.title == title)) := by
        rw [← hsweep]
        exact hmem
      have h2 := (List.mem_filter.mp hmem2).2
      simpa using h2
  · intro b s s' hinv hstep
    exact step_titleBlocked hstep hinv

/-- Witness for C7 at the empty initial store: blocking "a" then running
one news refresh keeps "a" blocked and absent from the store. -/
theorem C7_block_article_removes_and_blocks_witness :
    ((block_article "a" initState).state.news_articles
        = initState.news_articles.filter (fun a => !(a.title == "a"))
     ∧ TitleBlockedInv "a" (block_article "a" initState).state)
    ∧ TitleBlockedInv "a"
        (update_news none cfgGood [] ((block_article "a" initState).state)).state := by
  have h := C7_block_article_removes_and_blocks "a" initState
  have h1 := h.1 (by decide)
  exact ⟨h1, h.2 true _ _ h1.2 (Step.fireNews none cfgGood [] _)⟩

/-- C8 counterexample: one ingest of two fetched articles sharing a title
(but differing in content) stores both, so a reachable store holds two
articles with the same title. -/
theorem C8_claim_counterexample :
    Reachable true stDup
    ∧ stDup.news_articles.map (fun a => a.title) = ["dup", "dup"]
    ∧ ¬ (stDup.news_articles.map (fun a => a.title)).Nodup :=
  ⟨Reachable.step Reachable.init (Step.fireNews none cfgGood [rawDup1, rawDup2] initState),
   rfl, by decide⟩

/-- C8 amended: ingest deduplicates by whole formatted article, not by
title: every ingest preserves the absence of exact-duplicate stored
articles. -/
theorem C8_ingest_preserves_article_dedup :
    ∀ (n : Option String) (cfg : Config) (raw : List RawArticle) (st : SysState),
      st.news_articles.Nodup → (update_news n cfg raw st).state.news_articles.Nodup :=
  fun n cfg raw st h => update_news_nodup n cfg raw st h

/-- Witness for C8 at the initial (empty, duplicate-free) store. -/
theorem C8_ingest_preserves_article_dedup_witness :
    (update_news none cfgGood [rawDup1, rawDup2] initState).state.news_articles.Nodup :=
  C8_ingest_preserves_article_dedup none cfgGood [rawDup1, rawDup2] initState List.nodup_nil

end ECM
